import Mathlib

/-!
Shallow embedding of the Sugar shell sources (presence service facade,
battery palette, brightness device icon) together with proofs about the
behaviour of the embedded operations.

Python instance state is passed explicitly: the mutable attributes of
`PresenceService` become fields of `PSState`, Python exceptions become the
`Except` monad (values of `PyExc`), and the D-Bus / Telepathy environment
the code calls into is abstracted as explicit inputs (`ConnEnv`, the
response of a bus call, ...).
-/

namespace Sugar

/-- A D-Bus exception as seen by this client code: `get_dbus_name()` and the
message. An empty name stands for an exception raised without a D-Bus
error name. -/
structure DBusErr where
  dbus_name : String
  message : String
deriving DecidableEq, Repr

/-- The Python exceptions raised by the embedded code. -/
inductive PyExc where
  | runtimeError (msg : String)
  | valueError (msg : String)
  | ioError (msg : String)
  | dbusExc (e : DBusErr)
deriving DecidableEq, Repr

/-- Kind of wrapper constructed by `PresenceService._new_object`. -/
inductive ObjKind where
  | buddy
  | activity
deriving DecidableEq, Repr

/-- A Python wrapper object (`Buddy` or `Activity`) created by
`_new_object`. `oid` models Python object identity: each construction uses
a fresh value, so two wrappers are the identical Python object exactly when
they are equal as `PSObject`s. -/
structure PSObject where
  kind : ObjKind
  path : String
  oid : Nat
deriving DecidableEq, Repr

/-- The shared-activity wrapper constructed by `Activity(account_path, ...)`
in `get_activity`, `get_activity_by_handle` and `share_activity`. Fields
that a particular constructor call does not supply are `none`. -/
structure SharedActivity where
  account_path : String
  id : Option String
  room_handle : Option Nat
deriving DecidableEq, Repr

/-- Association-list lookup for the path-keyed object cache
(`self._objcache[object_path]`, raising `KeyError` becomes `none`). -/
def lookupPath : List (String × PSObject) → String → Option PSObject
  | [], _ => none
  | (k, v) :: rest, p => if k = p then some v else lookupPath rest p

/-- Removal of a key from the object cache (`del self._objcache[path]`). -/
def removePath : List (String × PSObject) → String → List (String × PSObject)
  | [], _ => []
  | (k, v) :: rest, p =>
    if k = p then removePath rest p else (k, v) :: removePath rest p

/-- The mutable attributes of a `PresenceService` instance. `nextId` is the
counter supplying fresh object identities, and `destroyed` records the
wrappers on which `.destroy()` was called. -/
structure PSState where
  objcache : List (String × PSObject)
  nextId : Nat
  activity_cache : Option SharedActivity
  destroyed : List PSObject
deriving DecidableEq, Repr

/-- The object-path namespace constants `_PS_BUDDY_OP` / `_PS_ACTIVITY_OP`
consulted by `_new_object` via `object_path.startswith(...)`. -/
structure PSConfig where
  psBuddyOp : String
  psActivityOp : String
deriving DecidableEq, Repr

/-- Python's `str.startswith`. -/
def pyStartswith (s p : String) : Bool :=
  p.data.isPrefixOf s.data

/-- `PresenceService._new_object`: return the cached wrapper for
`object_path` if present; otherwise construct a `Buddy` or `Activity`
wrapper according to the path namespace, store it in the cache and return
it; an unrecognised path raises `RuntimeError("Unknown object type")`. -/
def new_object (cfg : PSConfig) (st : PSState) (object_path : String) :
    Except PyExc (PSObject × PSState) :=
  match lookupPath st.objcache object_path with
  | some obj => .ok (obj, st)
  | none =>
    if pyStartswith object_path cfg.psBuddyOp then
      let obj : PSObject := ⟨.buddy, object_path, st.nextId⟩
      .ok (obj, { st with objcache := (object_path, obj) :: st.objcache,
                          nextId := st.nextId + 1 })
    else if pyStartswith object_path cfg.psActivityOp then
      let obj : PSObject := ⟨.activity, object_path, st.nextId⟩
      .ok (obj, { st with objcache := (object_path, obj) :: st.objcache,
                          nextId := st.nextId + 1 })
    else
      .error (.runtimeError "Unknown object type")

/-- `PresenceService._have_object`. -/
def have_object (st : PSState) (object_path : String) : Bool :=
  (lookupPath st.objcache object_path).isSome

/-- `PresenceService._del_object`. -/
def del_object (st : PSState) (object_path : String) : PSState :=
  { st with objcache := removePath st.objcache object_path }

/-- `PresenceService.get`: delegates to `_new_object`. -/
def get (cfg : PSConfig) (st : PSState) (object_path : String) :
    Except PyExc (PSObject × PSState) :=
  new_object cfg st object_path

/-- The `for item in resp: acts.append(self._new_object(item))` loops of
`get_activities` / `get_buddies`, run left to right. -/
def wrap_paths (cfg : PSConfig) (st : PSState) :
    List String → Except PyExc (List PSObject × PSState)
  | [] => .ok ([], st)
  | p :: rest => do
    let (obj, st1) ← new_object cfg st p
    let (objs, st2) ← wrap_paths cfg st1 rest
    .ok (obj :: objs, st2)

/-- `PresenceService.get_activities`. `resp` is the outcome of the
`self._ps.GetActivities()` bus call; the source wraps it in no
`try`/`except`, so a `DBusException` from the call propagates. -/
def get_activities (cfg : PSConfig) (st : PSState)
    (resp : Except DBusErr (List String)) :
    Except PyExc (List PSObject × PSState) :=
  match resp with
  | .error e => .error (.dbusExc e)
  | .ok paths => wrap_paths cfg st paths

/-- `PresenceService.get_buddies`. `resp` is the outcome of the
`self._ps.GetBuddies()` bus call; a `DBusException` from the call is caught
and logged and the empty list returned. -/
def get_buddies (cfg : PSConfig) (st : PSState)
    (resp : Except DBusErr (List String)) :
    Except PyExc (List PSObject × PSState) :=
  match resp with
  | .error _ => .ok ([], st)
  | .ok paths => wrap_paths cfg st paths

/-- Where an asynchronous bus error ends up: the caller-supplied handler or
the log. -/
inductive ErrorDisposition where
  | handled (e : DBusErr)
  | logged (e : DBusErr)
deriving DecidableEq, Repr

/-- `PresenceService._get_activities_error_cb`: route the error to the
supplied `error_handler` when one was given, log it otherwise. The handler
is abstracted to its presence. -/
def get_activities_error_cb (error_handler : Option Unit) (e : DBusErr) :
    ErrorDisposition :=
  if error_handler.isSome then .handled e else .logged e

/-- `PresenceService._get_buddies_error_cb`: identical routing. -/
def get_buddies_error_cb (error_handler : Option Unit) (e : DBusErr) :
    ErrorDisposition :=
  if error_handler.isSome then .handled e else .logged e

/-! ## Bus callbacks, idle scheduling and signal emission -/

/-- A GObject signal emission of `PresenceService` together with its
arguments. -/
inductive SignalEmission where
  | buddyAppeared (obj : PSObject)
  | buddyDisappeared (obj : PSObject)
  | activityInvitation (act : PSObject) (inviter : PSObject) (message : String)
  | privateInvitation (bus_name conn channel chan_type : String)
  | activityAppeared (obj : PSObject)
  | activityDisappeared (obj : PSObject)
deriving DecidableEq, Repr

/-- An `_emit_*_signal` bound method as scheduled by `gobject.idle_add`,
with its captured arguments. -/
inductive IdleFunc where
  | emitBuddyAppeared (op : String)
  | emitBuddyDisappeared (op : String)
  | emitActivityInvitation (activity_path buddy_path message : String)
  | emitPrivateInvitation (bus_name conn channel chan_type : String)
  | emitActivityAppeared (op : String)
  | emitActivityDisappeared (op : String)
deriving DecidableEq, Repr

/-- What a D-Bus event callback does: emit a GObject signal directly, or
schedule an idle function onto the main loop. -/
inductive CbAction where
  | emitSignal (s : SignalEmission)
  | idleAdd (f : IdleFunc)
deriving DecidableEq, Repr

/-- Whether a callback action is a direct signal emission. -/
def CbAction.isDirectEmit : CbAction → Bool
  | .emitSignal _ => true
  | .idleAdd _ => false

/-- `PresenceService._buddy_appeared_cb`. -/
def buddy_appeared_cb (op : String) : List CbAction :=
  [.idleAdd (.emitBuddyAppeared op)]

/-- `PresenceService._buddy_disappeared_cb`. -/
def buddy_disappeared_cb (object_path : String) : List CbAction :=
  [.idleAdd (.emitBuddyDisappeared object_path)]

/-- `PresenceService._activity_invitation_cb`. -/
def activity_invitation_cb (activity_path buddy_path message : String) :
    List CbAction :=
  [.idleAdd (.emitActivityInvitation activity_path buddy_path message)]

/-- `PresenceService._private_invitation_cb`. -/
def private_invitation_cb (bus_name conn channel chan_type : String) :
    List CbAction :=
  [.idleAdd (.emitPrivateInvitation bus_name conn channel chan_type)]

/-- `PresenceService._activity_appeared_cb`. -/
def activity_appeared_cb (object_path : String) : List CbAction :=
  [.idleAdd (.emitActivityAppeared object_path)]

/-- `PresenceService._activity_disappeared_cb`. -/
def activity_disappeared_cb (object_path : String) : List CbAction :=
  [.idleAdd (.emitActivityDisappeared object_path)]

/-- A D-Bus event delivered to `PresenceService`, with the arguments its
callback receives. -/
inductive BusEvent where
  | buddyAppeared (op : String)
  | buddyDisappeared (op : String)
  | activityInvitation (activity_path buddy_path message : String)
  | privateInvitation (bus_name conn channel chan_type : String)
  | activityAppeared (op : String)
  | activityDisappeared (op : String)
deriving DecidableEq, Repr

/-- Dispatch of a bus event to its `_*_cb` callback. -/
def busCallback : BusEvent → List CbAction
  | .buddyAppeared op => buddy_appeared_cb op
  | .buddyDisappeared op => buddy_disappeared_cb op
  | .activityInvitation a b m => activity_invitation_cb a b m
  | .privateInvitation n c ch t => private_invitation_cb n c ch t
  | .activityAppeared op => activity_appeared_cb op
  | .activityDisappeared op => activity_disappeared_cb op

/-- The emit function that corresponds to a bus event (the one its callback
is expected to schedule). -/
def scheduledIdle : BusEvent → IdleFunc
  | .buddyAppeared op => .emitBuddyAppeared op
  | .buddyDisappeared op => .emitBuddyDisappeared op
  | .activityInvitation a b m => .emitActivityInvitation a b m
  | .privateInvitation n c ch t => .emitPrivateInvitation n c ch t
  | .activityAppeared op => .emitActivityAppeared op
  | .activityDisappeared op => .emitActivityDisappeared op

/-- `PresenceService._emit_buddy_disappeared_signal`: when the path is
cached, emit `buddy-disappeared` with the cached object, drop it from the
cache and destroy it; otherwise do nothing. Returns `False` either way. -/
def emit_buddy_disappeared_signal (st : PSState) (object_path : String) :
    List SignalEmission × PSState × Bool :=
  if h : (lookupPath st.objcache object_path).isSome then
    let obj := (lookupPath st.objcache object_path).get h
    ([.buddyDisappeared obj],
     { st with objcache := removePath st.objcache object_path,
               destroyed := obj :: st.destroyed },
     false)
  else
    ([], st, false)

/-- Run a scheduled emit function: the signals it emits, the state after
it, and its Python return value (`False` keeps it from re-running). The
`_emit_*` bodies that call `_new_object` propagate its exception. -/
def runIdleFunc (cfg : PSConfig) (st : PSState) :
    IdleFunc → Except PyExc (List SignalEmission × PSState × Bool)
  | .emitBuddyAppeared op => do
    let (obj, st1) ← new_object cfg st op
    .ok ([.buddyAppeared obj], st1, false)
  | .emitBuddyDisappeared op =>
    .ok (emit_buddy_disappeared_signal st op)
  | .emitActivityInvitation ap bp msg => do
    let (act, st1) ← new_object cfg st ap
    let (inviter, st2) ← new_object cfg st1 bp
    .ok ([.activityInvitation act inviter msg], st2, false)
  | .emitPrivateInvitation n c ch t =>
    .ok ([.privateInvitation n c ch t], st, false)
  | .emitActivityAppeared op => do
    let (obj, st1) ← new_object cfg st op
    .ok ([.activityAppeared obj], st1, false)
  | .emitActivityDisappeared op => do
    let (obj, st1) ← new_object cfg st op
    .ok ([.activityDisappeared obj], st1, false)

/-! ## The shared-activity cache: get_activity, get_activity_by_handle,
share_activity -/

/-- A Telepathy connection as seen through the connection manager:
whether it is connected, and the outcome of `connection.GetActivity(id)`
(a room handle, or a `DBusException`). -/
structure Connection where
  connected : Bool
  getActivityResult : String → Except DBusErr Nat

/-- The Telepathy environment reached through `get_connection_manager()`
and `dbus.SessionBus()`: pure inputs to the embedded operations. -/
structure ConnEnv where
  connections_per_account : List (String × Connection)
  account_for_connection : String → String
  preferred_connection : String × Option String

/-- The error message of the `RuntimeError` in `get_activity` /
`get_activity_by_handle` (the source concatenates two adjacent string
literals without a space). -/
def ownInstanceMsg : String :=
  "Activities can only access their own sharedinstance"

/-- The `for account_path, connection in connections_per_account.items()`
loop of `get_activity`: skip disconnected connections, skip a
`NotAvailable` D-Bus error, re-raise any other `DBusException`, and on
success construct the `Activity`, cache it and return it. -/
def get_activity_loop (st : PSState) (activity_id : String) :
    List (String × Connection) →
    Except PyExc (Option SharedActivity) × PSState
  | [] => (.ok none, st)
  | (account_path, conn) :: rest =>
    if conn.connected then
      match conn.getActivityResult activity_id with
      | .error e =>
        if e.dbus_name = "org.freedesktop.Telepathy.Error.NotAvailable" then
          get_activity_loop st activity_id rest
        else
          (.error (.dbusExc e), st)
      | .ok room_handle =>
        let activity : SharedActivity :=
          ⟨account_path, some activity_id, some room_handle⟩
        (.ok (some activity), { st with activity_cache := some activity })
    else
      get_activity_loop st activity_id rest

/-- `PresenceService.get_activity`: with a tracked shared activity, a
mismatched id raises `RuntimeError` and a matching id returns the cached
activity itself; otherwise query each connected account. -/
def get_activity (env : ConnEnv) (st : PSState) (activity_id : String) :
    Except PyExc (Option SharedActivity) × PSState :=
  match st.activity_cache with
  | some a =>
    if a.id ≠ some activity_id then
      (.error (.runtimeError ownInstanceMsg), st)
    else
      (.ok (some a), st)
  | none => get_activity_loop st activity_id env.connections_per_account

/-- `PresenceService.get_activity_by_handle`: with a tracked shared
activity, a mismatched room handle raises `RuntimeError` and a matching one
returns the cached activity itself; otherwise construct an `Activity` for
the handle, cache it and return it. -/
def get_activity_by_handle (env : ConnEnv) (st : PSState)
    (connection_path : String) (room_handle : Nat) :
    Except PyExc SharedActivity × PSState :=
  match st.activity_cache with
  | some a =>
    if a.room_handle ≠ some room_handle then
      (.error (.runtimeError ownInstanceMsg), st)
    else
      (.ok a, st)
  | none =>
    let account_path := env.account_for_connection connection_path
    let activity : SharedActivity := ⟨account_path, none, some room_handle⟩
    (.ok activity, { st with activity_cache := some activity })

/-- A value in the `properties` dict passed to `share_activity`. -/
inductive PropVal where
  | str (s : String)
  | noneVal
  | boolVal (b : Bool)
deriving DecidableEq, Repr

/-- The activity object handed to `share_activity` (`get_id()`,
`get_bundle_id()`, `metadata`). -/
structure ActivityModel where
  activity_id : String
  bundle_id : String
  metadata : List (String × String)
deriving DecidableEq, Repr

/-- Dict lookup in a `properties` dict. -/
def lookupProp : List (String × PropVal) → String → Option PropVal
  | [], _ => none
  | (k, v) :: rest, p => if k = p then some v else lookupProp rest p

/-- The `if key not in properties: properties[key] = v` pattern. -/
def setDefaultProp (props : List (String × PropVal)) (k : String)
    (v : PropVal) : List (String × PropVal) :=
  if (lookupProp props k).isSome then props else (k, v) :: props

/-- Plain dict assignment `properties[key] = v`. -/
def setProp (props : List (String × PropVal)) (k : String) (v : PropVal) :
    List (String × PropVal) :=
  (k, v) :: props.filter (fun kv => kv.1 ≠ k)

/-- `activity.metadata.get(key, None)`. -/
def metadataGet (act : ActivityModel) (key : String) : PropVal :=
  match act.metadata.lookup key with
  | some s => .str s
  | none => .noneVal

/-- `PresenceService.share_activity`: fill in the default `id`, `type`,
`name`, `color` and `private` properties, raise `ValueError` when a shared
activity is already tracked, otherwise construct the shared `Activity` on
the preferred connection and cache it (its asynchronous `share` call is
outside the state modelled here). -/
def share_activity (env : ConnEnv) (st : PSState) (activity : ActivityModel)
    (properties : List (String × PropVal)) (priv : Bool) :
    Except PyExc Unit × PSState :=
  let properties := setDefaultProp properties "id" (.str activity.activity_id)
  let properties := setDefaultProp properties "type" (.str activity.bundle_id)
  let properties := setDefaultProp properties "name" (metadataGet activity "title")
  let properties :=
    setDefaultProp properties "color" (metadataGet activity "icon-color")
  let properties := setProp properties "private" (.boolVal priv)
  match st.activity_cache with
  | some _ => (.error (.valueError "Activity %s is already tracked"), st)
  | none =>
    let account_path := env.preferred_connection.1
    let shared_activity : SharedActivity :=
      ⟨account_path,
       match lookupProp properties "id" with
       | some (.str s) => some s
       | _ => none,
       none⟩
    (.ok (), { st with activity_cache := some shared_activity })

/-! ## get_instance and the offline stand-in -/

/-- What `get_instance` can hand out: the real `PresenceService` facade or
the `_OfflineInterface` stand-in. -/
inductive PSInstance where
  | presenceService
  | offlineInterface
deriving DecidableEq, Repr

/-- `presenceservice.get_instance`: the module-global `_ps` is created as a
`PresenceService()` on first use and returned ever after; the
`allow_offline_iface` argument is accepted but never consulted. Returns
the instance handed to the caller and the new value of the global. -/
def get_instance (ps_global : Option PSInstance)
    (allow_offline_iface : Bool) : PSInstance × Option PSInstance :=
  match ps_global with
  | some i => (i, some i)
  | none => (.presenceService, some .presenceService)

/-- A method of `_OfflineInterface`. -/
inductive OfflineMethod where
  | getActivities
  | getActivityById
  | getBuddies
  | getBuddyByPublicKey
  | getOwner
  | getPreferredConnection
  | shareActivity
deriving DecidableEq, Repr

/-- What a call on `_OfflineInterface` does: raise an exception, or pass
one to the caller-supplied `error_handler` and return its result. -/
inductive OfflineOutcome where
  | raises (e : PyExc)
  | callsErrorHandler (e : PyExc)
deriving DecidableEq, Repr

/-- `_OfflineInterface.raiseException`'s exception. -/
def offlineUnavailableExc : PyExc :=
  .dbusExc ⟨"", "PresenceService Interface not available"⟩

/-- Calling a method of `_OfflineInterface`: the six query methods are all
aliases of `raiseException`; `ShareActivity` instead builds an `IOError`
and returns `error_handler(exc)`. -/
def offlineCall : OfflineMethod → OfflineOutcome
  | .getActivities => .raises offlineUnavailableExc
  | .getActivityById => .raises offlineUnavailableExc
  | .getBuddies => .raises offlineUnavailableExc
  | .getBuddyByPublicKey => .raises offlineUnavailableExc
  | .getOwner => .raises offlineUnavailableExc
  | .getPreferredConnection => .raises offlineUnavailableExc
  | .shareActivity =>
    .callsErrorHandler
      (.ioError
        "Unable to share activity as PresenceService is not currently available")

/-! ## Battery palette (shell/view/devices/battery.py) -/

/-- The widget state of `BatteryPalette`: the recorded level, the progress
bar's fraction, and the status label's text. Python's float arithmetic
`float(percent/100.0)` is embedded exactly over `ℚ`. -/
structure BatteryPalette where
  level : ℤ
  progress_fraction : ℚ
  status_text : String
deriving DecidableEq, Repr

/-- The observable properties of the battery model (`level`, `charging`,
`discharging`). -/
structure BatteryModelProps where
  level : ℤ
  charging : Bool
  discharging : Bool
deriving DecidableEq, Repr

/-- `BatteryPalette.update_progress_bar`: record the level and set the
progress bar fraction to `percent / 100`. -/
def update_progress_bar (pal : BatteryPalette) (percent : ℤ) :
    BatteryPalette :=
  { pal with level := percent,
             progress_fraction := (percent : ℚ) / 100 }

/-- `BatteryPalette.update_charge_status`: set the status label from the
charging flags and the recorded level. -/
def update_charge_status (pal : BatteryPalette)
    (charging discharging : Bool) : BatteryPalette :=
  let percent_string := " (" ++ toString pal.level ++ "%)"
  let charge_text :=
    if charging then "Battery charging" ++ percent_string
    else if discharging then "Battery discharging" ++ percent_string
    else "Battery fully charged"
  { pal with status_text := charge_text }

/-- `DeviceView._update_info` restricted to the palette: update the
progress bar from the model's level, then the charge status from its flags
(the icon-name update goes through `canvasicon.get_icon_state`, a library
function outside this repository). -/
def battery_update_info (pal : BatteryPalette) (m : BatteryModelProps) :
    BatteryPalette :=
  update_charge_status (update_progress_bar pal m.level)
    m.charging m.discharging

/-! ## Brightness device icon (extensions/deviceicon/brightness.py) -/

/-- `math.ceil(float(level) * 3 / max_brightness) * 33`, embedded over
exact rationals. -/
def brightness_icon_number (level max_brightness : ℕ) : ℤ :=
  ⌈(level : ℚ) * 3 / (max_brightness : ℚ)⌉ * 33

/-- Python's `'{:03d}'.format(n)` for a nonnegative `n`. -/
def formatPad3 (n : ℕ) : String :=
  (if n < 10 then "00" else if n < 100 then "0" else "") ++ toString n

/-- `DeviceView._update_output_info` restricted to the icon name: compute
the icon number, map `99` to `100`, and format `'brightness-{:03d}'`. -/
def brightness_icon_name (level max_brightness : ℕ) : String :=
  let icon_number := brightness_icon_number level max_brightness
  let icon_number := if icon_number = 99 then 100 else icon_number
  "brightness-" ++ formatPad3 icon_number.toNat

/-! ## Sample inputs used by the concrete witnesses -/

/-- Sample path-namespace configuration. -/
def cfg0 : PSConfig := ⟨"/b/", "/a/"⟩

/-- A freshly initialised service state. -/
def psEmpty : PSState := ⟨[], 0, none, []⟩

/-- The buddy wrapper `new_object` creates first from `psEmpty`. -/
def obj1 : PSObject := ⟨.buddy, "/b/x", 0⟩

/-- The state after creating `obj1`. -/
def psStB : PSState := ⟨[("/b/x", obj1)], 1, none, []⟩

/-- The activity wrapper created second. -/
def objA : PSObject := ⟨.activity, "/a/y", 1⟩

/-- The state after creating `obj1` then `objA`. -/
def psStBA : PSState := ⟨[("/a/y", objA), ("/b/x", obj1)], 2, none, []⟩

/-- Sample empty Telepathy environment. -/
def env0 : ConnEnv := ⟨[], fun _ => "", ("/acct", none)⟩

/-- A tracked shared activity. -/
def actA : SharedActivity := ⟨"/acct", some "aid1", some 5⟩

/-- A state already tracking `actA`. -/
def stActA : PSState := ⟨[], 0, some actA, []⟩

/-- A sample D-Bus error. -/
def err0 : DBusErr := ⟨"org.freedesktop.DBus.Error.NoReply", "timeout"⟩

/-! ## Object-cache lemmas -/

/-- Looking up a key of a just-extended cache finds the new entry. -/
theorem lookupPath_cons_self (c : List (String × PSObject)) (p : String)
    (o : PSObject) : lookupPath ((p, o) :: c) p = some o := by
  simp [lookupPath]

/-- Removing a key makes its lookup fail. -/
theorem lookupPath_removePath_self (c : List (String × PSObject))
    (p : String) : lookupPath (removePath c p) p = none := by
  induction c with
  | nil => rfl
  | cons kv rest ih =>
    obtain ⟨k, v⟩ := kv
    simp only [removePath]
    by_cases hk : k = p
    · rw [if_pos hk]; exact ih
    · rw [if_neg hk]; simp only [lookupPath]; rw [if_neg hk]; exact ih

/-- A successful `new_object` call leaves its wrapper in the cache under
the requested path. -/
theorem new_object_stores {cfg : PSConfig} {st : PSState} {p : String}
    {o : PSObject} {st' : PSState}
    (h : new_object cfg st p = .ok (o, st')) :
    lookupPath st'.objcache p = some o := by
  unfold new_object at h
  split at h
  · next obj hl =>
    simp only [Except.ok.injEq, Prod.mk.injEq] at h
    obtain ⟨ho, hst⟩ := h
    subst ho hst
    exact hl
  · next hl =>
    split at h
    · simp only [Except.ok.injEq, Prod.mk.injEq] at h
      obtain ⟨ho, hst⟩ := h
      subst ho hst
      exact lookupPath_cons_self _ _ _
    · split at h
      · simp only [Except.ok.injEq, Prod.mk.injEq] at h
        obtain ⟨ho, hst⟩ := h
        subst ho hst
        exact lookupPath_cons_self _ _ _
      · exact absurd h (by simp)

/-- A cache hit makes `new_object` return the cached wrapper with the
state untouched. -/
theorem new_object_cache_hit {cfg : PSConfig} {st : PSState} {p : String}
    {o : PSObject} (h : lookupPath st.objcache p = some o) :
    new_object cfg st p = .ok (o, st) := by
  unfold new_object
  rw [h]

/-- `new_object` never displaces an existing cache entry. -/
theorem new_object_mono {cfg : PSConfig} {st : PSState} {p : String}
    {o : PSObject} {st' : PSState}
    (h : new_object cfg st p = .ok (o, st'))
    {q : String} {x : PSObject}
    (hq : lookupPath st.objcache q = some x) :
    lookupPath st'.objcache q = some x := by
  unfold new_object at h
  split at h
  · next obj hl =>
    simp only [Except.ok.injEq, Prod.mk.injEq] at h
    rw [← h.2]
    exact hq
  · next hl =>
    have hpq : p ≠ q := by
      intro he
      rw [he, hq] at hl
      cases hl
    split at h
    · simp only [Except.ok.injEq, Prod.mk.injEq] at h
      rw [← h.2]
      simp only [lookupPath]
      rw [if_neg hpq]
      exact hq
    · split at h
      · simp only [Except.ok.injEq, Prod.mk.injEq] at h
        rw [← h.2]
        simp only [lookupPath]
        rw [if_neg hpq]
        exact hq
      · exact absurd h (by simp)

/-- C1: repeated `PresenceService.get` calls on a D-Bus object path return
the identical wrapper: a successful call leaves its wrapper cached under
the path, repeating the call returns that same object with the state
unchanged, a first call (cache miss) constructs a fresh Buddy or Activity
wrapper, and the association survives any further successful call on any
path, so there is at most one Python object per object path. -/
theorem C1_get_memoizes_per_path (cfg : PSConfig) (st : PSState)
    (p : String) (o : PSObject) (st' : PSState)
    (h : get cfg st p = .ok (o, st')) :
    lookupPath st'.objcache p = some o ∧
    get cfg st' p = .ok (o, st') ∧
    (lookupPath st.objcache p = none →
      o = ⟨.buddy, p, st.nextId⟩ ∨ o = ⟨.activity, p, st.nextId⟩) ∧
    (∀ q o2 st2, get cfg st' q = .ok (o2, st2) →
      get cfg st2 p = .ok (o, st2)) := by
  have hs := new_object_stores h
  refine ⟨hs, new_object_cache_hit hs, ?_, ?_⟩
  · intro hnone
    simp only [get, new_object, hnone] at h
    split at h
    · simp only [Except.ok.injEq, Prod.mk.injEq] at h
      exact Or.inl h.1.symm
    · split at h
      · simp only [Except.ok.injEq, Prod.mk.injEq] at h
        exact Or.inr h.1.symm
      · exact absurd h (by simp)
  · intro q o2 st2 h2
    exact new_object_cache_hit (new_object_mono h2 hs)

/-- Witness for C1 at a concrete fresh buddy path. -/
theorem C1_witness :
    lookupPath psStB.objcache "/b/x" = some obj1 ∧
    get cfg0 psStB "/b/x" = .ok (obj1, psStB) ∧
    (lookupPath psEmpty.objcache "/b/x" = none →
      obj1 = ⟨.buddy, "/b/x", psEmpty.nextId⟩ ∨
      obj1 = ⟨.activity, "/b/x", psEmpty.nextId⟩) ∧
    (∀ q o2 st2, get cfg0 psStB q = .ok (o2, st2) →
      get cfg0 st2 "/b/x" = .ok (obj1, st2)) :=
  C1_get_memoizes_per_path cfg0 psEmpty "/b/x" obj1 psStB rfl

/-- A successful wrapping loop never displaces an existing cache entry. -/
theorem wrap_paths_mono {cfg : PSConfig} {st : PSState} {paths : List String}
    {acts : List PSObject} {st' : PSState}
    (h : wrap_paths cfg st paths = .ok (acts, st'))
    {q : String} {x : PSObject}
    (hq : lookupPath st.objcache q = some x) :
    lookupPath st'.objcache q = some x := by
  induction paths generalizing st acts st' with
  | nil =>
    simp only [wrap_paths, Except.ok.injEq, Prod.mk.injEq] at h
    rw [← h.2]
    exact hq
  | cons p rest ih =>
    rw [wrap_paths] at h
    cases hno : new_object cfg st p with
    | error e =>
      rw [hno] at h
      exact absurd h (by simp [Bind.bind, Except.bind])
    | ok v =>
      obtain ⟨obj, st1⟩ := v
      rw [hno] at h
      simp only [Bind.bind, Except.bind] at h
      cases hw : wrap_paths cfg st1 rest with
      | error e =>
        rw [hw] at h
        exact absurd h (by simp)
      | ok w =>
        obtain ⟨objs, st2⟩ := w
        rw [hw] at h
        simp only [Except.ok.injEq, Prod.mk.injEq] at h
        rw [← h.2]
        exact ih hw (new_object_mono hno hq)

/-- The wrapping loop returns one wrapper per reported path, in order, and
each result is the cache's entry for its path in the final state. -/
theorem wrap_paths_spec {cfg : PSConfig} {st : PSState} {paths : List String}
    {acts : List PSObject} {st' : PSState}
    (h : wrap_paths cfg st paths = .ok (acts, st')) :
    acts.length = paths.length ∧
    ∀ i (hi : i < paths.length) (hi2 : i < acts.length),
      lookupPath st'.objcache (paths.get ⟨i, hi⟩) = some (acts.get ⟨i, hi2⟩) := by
  induction paths generalizing st acts st' with
  | nil =>
    simp only [wrap_paths, Except.ok.injEq, Prod.mk.injEq] at h
    rw [← h.1]
    exact ⟨rfl, fun i hi hi2 => absurd hi (by simp)⟩
  | cons p rest ih =>
    rw [wrap_paths] at h
    cases hno : new_object cfg st p with
    | error e =>
      rw [hno] at h
      exact absurd h (by simp [Bind.bind, Except.bind])
    | ok v =>
      obtain ⟨obj, st1⟩ := v
      rw [hno] at h
      simp only [Bind.bind, Except.bind] at h
      cases hw : wrap_paths cfg st1 rest with
      | error e =>
        rw [hw] at h
        exact absurd h (by simp)
      | ok w =>
        obtain ⟨objs, st2⟩ := w
        rw [hw] at h
        simp only [Except.ok.injEq, Prod.mk.injEq] at h
        obtain ⟨hacts, hst⟩ := h
        subst hst
        rw [← hacts]
        obtain ⟨hlen, hidx⟩ := ih hw
        refine ⟨by simp [hlen], ?_⟩
        intro i hi hi2
        cases i with
        | zero =>
          exact wrap_paths_mono hw (new_object_stores hno)
        | succ n =>
          exact hidx n (by simpa using hi) (by simpa using hi2)

/-- C6: for every list of object paths the service reports from
`GetActivities` (resp. `GetBuddies`), `get_activities` (resp.
`get_buddies`) returns exactly one wrapped object per reported path, in
the reported order, each being the deduplicating object cache's entry for
its path; both operations agree on the same report. -/
theorem C6_wrapped_lists_match_report (cfg : PSConfig) (st : PSState)
    (paths : List String) (acts : List PSObject) (st' : PSState)
    (h : get_activities cfg st (.ok paths) = .ok (acts, st')) :
    acts.length = paths.length ∧
    (∀ i (hi : i < paths.length) (hi2 : i < acts.length),
      lookupPath st'.objcache (paths.get ⟨i, hi⟩) = some (acts.get ⟨i, hi2⟩)) ∧
    get_buddies cfg st (.ok paths) = .ok (acts, st') := by
  have hw : wrap_paths cfg st paths = .ok (acts, st') := h
  obtain ⟨h1, h2⟩ := wrap_paths_spec hw
  exact ⟨h1, h2, hw⟩

/-- Witness for C6 on a three-element report with a repeated path. -/
theorem C6_witness :
    ([obj1, objA, obj1] : List PSObject).length =
      (["/b/x", "/a/y", "/b/x"] : List String).length ∧
    lookupPath psStBA.objcache "/b/x" = some obj1 ∧
    get_buddies cfg0 psEmpty (.ok ["/b/x", "/a/y", "/b/x"]) =
      .ok ([obj1, objA, obj1], psStBA) := by
  have h := C6_wrapped_lists_match_report cfg0 psEmpty
    ["/b/x", "/a/y", "/b/x"] [obj1, objA, obj1] psStBA rfl
  exact ⟨h.1, h.2.1 0 (by decide) (by decide), h.2.2⟩

/-- C9: a buddy-disappeared event on an uncached path emits nothing and
leaves the state unchanged; on a cached path it emits `buddy-disappeared`
carrying exactly the cached object, after which the path is no longer
cached and the object has been destroyed. -/
theorem C9_buddy_disappeared_cases (st : PSState) (p : String) :
    (lookupPath st.objcache p = none →
      emit_buddy_disappeared_signal st p = ([], st, false)) ∧
    ∀ o, lookupPath st.objcache p = some o →
      (emit_buddy_disappeared_signal st p).1 =
        [SignalEmission.buddyDisappeared o] ∧
      lookupPath (emit_buddy_disappeared_signal st p).2.1.objcache p =
        none ∧
      o ∈ (emit_buddy_disappeared_signal st p).2.1.destroyed := by
  constructor
  · intro hn
    simp [emit_buddy_disappeared_signal, hn]
  · intro o ho
    simp [emit_buddy_disappeared_signal, ho, lookupPath_removePath_self]

/-- Witness for C9: one uncached path, one cached path. -/
theorem C9_witness :
    emit_buddy_disappeared_signal psStB "/b/other" = ([], psStB, false) ∧
    (emit_buddy_disappeared_signal psStB "/b/x").1 =
      [SignalEmission.buddyDisappeared obj1] ∧
    lookupPath (emit_buddy_disappeared_signal psStB "/b/x").2.1.objcache
      "/b/x" = none ∧
    obj1 ∈ (emit_buddy_disappeared_signal psStB "/b/x").2.1.destroyed := by
  refine ⟨(C9_buddy_disappeared_cases psStB "/b/other").1 rfl, ?_⟩
  exact (C9_buddy_disappeared_cases psStB "/b/x").2 obj1 rfl

/-- `_emit_buddy_disappeared_signal` returns `False` on both branches. -/
theorem emit_buddy_disappeared_returns_false (st : PSState) (p : String) :
    (emit_buddy_disappeared_signal st p).2.2 = false := by
  unfold emit_buddy_disappeared_signal
  split <;> rfl

/-- Every scheduled emit function that completes returns `False`. -/
theorem runIdleFunc_returns_false (cfg : PSConfig) (st : PSState)
    (f : IdleFunc) (out : List SignalEmission × PSState × Bool)
    (h : runIdleFunc cfg st f = .ok out) : out.2.2 = false := by
  cases f with
  | emitBuddyAppeared op =>
    simp only [runIdleFunc] at h
    cases hno : new_object cfg st op with
    | error e =>
      rw [hno] at h
      exact absurd h (by simp [Bind.bind, Except.bind])
    | ok v =>
      obtain ⟨obj, st1⟩ := v
      rw [hno] at h
      simp only [Bind.bind, Except.bind, Except.ok.injEq] at h
      rw [← h]
  | emitBuddyDisappeared op =>
    simp only [runIdleFunc, Except.ok.injEq] at h
    rw [← h]
    exact emit_buddy_disappeared_returns_false st op
  | emitActivityInvitation ap bp msg =>
    simp only [runIdleFunc] at h
    cases hno : new_object cfg st ap with
    | error e =>
      rw [hno] at h
      exact absurd h (by simp [Bind.bind, Except.bind])
    | ok v =>
      obtain ⟨act, st1⟩ := v
      rw [hno] at h
      simp only [Bind.bind, Except.bind] at h
      cases hno2 : new_object cfg st1 bp with
      | error e =>
        rw [hno2] at h
        exact absurd h (by simp)
      | ok w =>
        obtain ⟨inviter, st2⟩ := w
        rw [hno2] at h
        simp only [Except.ok.injEq] at h
        rw [← h]
  | emitPrivateInvitation n c ch t =>
    simp only [runIdleFunc, Except.ok.injEq] at h
    rw [← h]
  | emitActivityAppeared op =>
    simp only [runIdleFunc] at h
    cases hno : new_object cfg st op with
    | error e =>
      rw [hno] at h
      exact absurd h (by simp [Bind.bind, Except.bind])
    | ok v =>
      obtain ⟨obj, st1⟩ := v
      rw [hno] at h
      simp only [Bind.bind, Except.bind, Except.ok.injEq] at h
      rw [← h]
  | emitActivityDisappeared op =>
    simp only [runIdleFunc] at h
    cases hno : new_object cfg st op with
    | error e =>
      rw [hno] at h
      exact absurd h (by simp [Bind.bind, Except.bind])
    | ok v =>
      obtain ⟨obj, st1⟩ := v
      rw [hno] at h
      simp only [Bind.bind, Except.bind, Except.ok.injEq] at h
      rw [← h]

/-- C7: no bus callback emits a GObject signal directly: each callback
only schedules the corresponding emit function via `gobject.idle_add`, and
every scheduled emit function that completes returns `False`, so it runs
exactly once per scheduled event. -/
theorem C7_callbacks_only_idle_add (e : BusEvent) :
    busCallback e = [CbAction.idleAdd (scheduledIdle e)] ∧
    (∀ a ∈ busCallback e, a.isDirectEmit = false) ∧
    ∀ cfg st out, runIdleFunc cfg st (scheduledIdle e) = .ok out →
      out.2.2 = false := by
  refine ⟨?_, ?_, fun cfg st out h => runIdleFunc_returns_false cfg st _ out h⟩
  · cases e <;> rfl
  · cases e <;>
      simp [busCallback, buddy_appeared_cb, buddy_disappeared_cb,
        activity_invitation_cb, private_invitation_cb, activity_appeared_cb,
        activity_disappeared_cb, CbAction.isDirectEmit]

/-- Witness for C7 at a concrete buddy-appeared event. -/
theorem C7_witness :
    busCallback (BusEvent.buddyAppeared "/b/x") =
      [CbAction.idleAdd (IdleFunc.emitBuddyAppeared "/b/x")] ∧
    ([SignalEmission.buddyAppeared obj1], psStB, false).2.2 = false := by
  obtain ⟨h1, _, h3⟩ := C7_callbacks_only_idle_add (BusEvent.buddyAppeared "/b/x")
  exact ⟨h1, h3 cfg0 psEmpty _ rfl⟩

/-- C8: once a shared activity is tracked in the activity cache,
`get_activity` with a different id and `get_activity_by_handle` with a
different room handle raise `RuntimeError`, `share_activity` raises
`ValueError`, each leaving the cache (indeed the whole state) unchanged;
with a matching id or handle the cached activity object itself is
returned. -/
theorem C8_tracked_activity_guard (env : ConnEnv) (st : PSState)
    (a : SharedActivity) (hc : st.activity_cache = some a) :
    (∀ aid, a.id ≠ some aid →
      get_activity env st aid = (.error (.runtimeError ownInstanceMsg), st)) ∧
    (∀ aid, a.id = some aid →
      get_activity env st aid = (.ok (some a), st)) ∧
    (∀ cp rh, a.room_handle ≠ some rh →
      get_activity_by_handle env st cp rh =
        (.error (.runtimeError ownInstanceMsg), st)) ∧
    (∀ cp rh, a.room_handle = some rh →
      get_activity_by_handle env st cp rh = (.ok a, st)) ∧
    (∀ act props priv,
      share_activity env st act props priv =
        (.error (.valueError "Activity %s is already tracked"), st)) := by
  refine ⟨?_, ?_, ?_, ?_, ?_⟩
  · intro aid hne
    simp [get_activity, hc, hne]
  · intro aid heq
    simp [get_activity, hc, heq]
  · intro cp rh hne
    simp [get_activity_by_handle, hc, hne]
  · intro cp rh heq
    simp [get_activity_by_handle, hc, heq]
  · intro act props priv
    simp [share_activity, hc]

/-- Witness for C8 on a tracked activity with id `aid1`, handle `5`. -/
theorem C8_witness :
    get_activity env0 stActA "other" =
      (.error (.runtimeError ownInstanceMsg), stActA) ∧
    get_activity env0 stActA "aid1" = (.ok (some actA), stActA) ∧
    get_activity_by_handle env0 stActA "/conn" 7 =
      (.error (.runtimeError ownInstanceMsg), stActA) ∧
    get_activity_by_handle env0 stActA "/conn" 5 = (.ok actA, stActA) ∧
    share_activity env0 stActA ⟨"aid2", "org.test", []⟩ [] true =
      (.error (.valueError "Activity %s is already tracked"), stActA) := by
  obtain ⟨h1, h2, h3, h4, h5⟩ :=
    C8_tracked_activity_guard env0 stActA actA rfl
  exact ⟨h1 "other" (by decide), h2 "aid1" rfl, h3 "/conn" 7 (by decide),
    h4 "/conn" 5 rfl, h5 ⟨"aid2", "org.test", []⟩ [] true⟩

/-- Counterexample to C2 as stated: `_OfflineInterface.ShareActivity` does
not raise the "service not available" `DBusException`; it hands an
`IOError` to the caller-supplied `error_handler` and returns its result. -/
theorem C2_counterexample :
    offlineCall OfflineMethod.shareActivity ≠
      OfflineOutcome.raises offlineUnavailableExc ∧
    offlineCall OfflineMethod.shareActivity =
      OfflineOutcome.callsErrorHandler (PyExc.ioError
        "Unable to share activity as PresenceService is not currently available") := by
  exact ⟨by decide, rfl⟩

/-- C2 (amended): the six query methods of `_OfflineInterface` all raise
`DBusException('PresenceService Interface not available')`; `ShareActivity`
instead passes an `IOError` to the supplied `error_handler` without
raising. -/
theorem C2_offline_methods :
    offlineCall .getActivities = .raises offlineUnavailableExc ∧
    offlineCall .getActivityById = .raises offlineUnavailableExc ∧
    offlineCall .getBuddies = .raises offlineUnavailableExc ∧
    offlineCall .getBuddyByPublicKey = .raises offlineUnavailableExc ∧
    offlineCall .getOwner = .raises offlineUnavailableExc ∧
    offlineCall .getPreferredConnection = .raises offlineUnavailableExc ∧
    offlineCall .shareActivity =
      OfflineOutcome.callsErrorHandler (PyExc.ioError
        "Unable to share activity as PresenceService is not currently available") :=
  ⟨rfl, rfl, rfl, rfl, rfl, rfl, rfl⟩

/-- Counterexample to C3 as stated: even on first use with
`allow_offline_iface=True` (the unavailable-service scenario),
`get_instance` hands out a `PresenceService`, never the
`_OfflineInterface` stand-in. -/
theorem C3_counterexample :
    (get_instance none true).1 = PSInstance.presenceService ∧
    (get_instance none true).1 ≠ PSInstance.offlineInterface :=
  ⟨rfl, by decide⟩

/-- C3 (amended): `get_instance` always returns the process-wide
`PresenceService`: the first call creates and stores it, later calls
return the stored instance unchanged, and the `allow_offline_iface`
argument is ignored, so the `_OfflineInterface` stand-in is never handed
out by `get_instance`. -/
theorem C3_get_instance_always_real (b b2 : Bool) (g : Option PSInstance) :
    (get_instance none b).1 = PSInstance.presenceService ∧
    (∀ i, get_instance (some i) b = (i, some i)) ∧
    (get_instance (get_instance g b).2 b2).1 = (get_instance g b).1 := by
  refine ⟨rfl, fun i => rfl, ?_⟩
  cases g <;> rfl

/-- Counterexample to C4 as stated: a `DBusException` from the synchronous
`GetActivities` bus call is not caught; `get_activities` propagates it
instead of logging it and returning an empty list. -/
theorem C4_counterexample :
    get_activities cfg0 psEmpty (.error err0) =
      .error (.dbusExc err0) ∧
    get_activities cfg0 psEmpty (.error err0) ≠ .ok ([], psEmpty) :=
  ⟨rfl, fun h => Except.noConfusion h⟩

/-- C4 (amended): asynchronous bus errors are routed to the supplied
`error_handler` when one was given and logged otherwise, and a
`DBusException` from the synchronous buddy-list retrieval is caught and
logged with an empty list returned; but a failure of the synchronous
activity-list retrieval propagates to the caller. -/
theorem C4_error_routing (cfg : PSConfig) (st : PSState) (e : DBusErr)
    (u : Unit) :
    get_buddies cfg st (.error e) = .ok ([], st) ∧
    get_activities cfg st (.error e) = .error (.dbusExc e) ∧
    get_activities_error_cb (some u) e = .handled e ∧
    get_activities_error_cb none e = .logged e ∧
    get_buddies_error_cb (some u) e = .handled e ∧
    get_buddies_error_cb none e = .logged e :=
  ⟨rfl, rfl, rfl, rfl, rfl, rfl⟩

/-- C5: `update_progress_bar` sets the progress bar's fraction to the
battery level divided by 100 and records the level, and this also holds
after the full `_update_info` palette refresh. -/
theorem C5_progress_fraction (pal : BatteryPalette) (percent : ℤ)
    (m : BatteryModelProps) :
    (update_progress_bar pal percent).progress_fraction =
      (percent : ℚ) / 100 ∧
    (update_progress_bar pal percent).level = percent ∧
    (battery_update_info pal m).progress_fraction = (m.level : ℚ) / 100 ∧
    (battery_update_info pal m).level = m.level := by
  refine ⟨rfl, rfl, ?_, ?_⟩ <;>
    simp [battery_update_info, update_charge_status, update_progress_bar]

/-- For a level between `0` and a positive maximum, the brightness icon
number's ceiling lies between `0` and `3`. -/
theorem brightness_ceil_bounds (l maxb : ℕ) (hmax : 0 < maxb)
    (hl : l ≤ maxb) :
    0 ≤ ⌈(l : ℚ) * 3 / (maxb : ℚ)⌉ ∧ ⌈(l : ℚ) * 3 / (maxb : ℚ)⌉ ≤ 3 := by
  have hm : (0 : ℚ) < (maxb : ℚ) := by exact_mod_cast hmax
  constructor
  · exact Int.ceil_nonneg (by positivity)
  · rw [Int.ceil_le]
    rw [div_le_iff₀ hm]
    push_cast
    have : (l : ℚ) ≤ (maxb : ℚ) := by exact_mod_cast hl
    linarith

/-- C10: for `0 ≤ l ≤ max` with `max > 0`, the brightness tray icon name
is `brightness-NNN` with `NNN = ⌈3·l/max⌉·33` and `99` mapped to `100`, so
it is always one of `brightness-000`, `brightness-033`, `brightness-066`,
`brightness-100`; `l = 0` yields `brightness-000` and `l = max` yields
`brightness-100`. -/
theorem C10_brightness_icon_names (l maxb : ℕ) (hmax : 0 < maxb)
    (hl : l ≤ maxb) :
    brightness_icon_name l maxb ∈
      ["brightness-000", "brightness-033", "brightness-066",
       "brightness-100"] ∧
    (l = 0 → brightness_icon_name l maxb = "brightness-000") ∧
    (l = maxb → brightness_icon_name l maxb = "brightness-100") := by
  refine ⟨?_, ?_, ?_⟩
  · obtain ⟨h0, h3⟩ := brightness_ceil_bounds l maxb hmax hl
    have hcases : ⌈(l : ℚ) * 3 / (maxb : ℚ)⌉ = 0 ∨
        ⌈(l : ℚ) * 3 / (maxb : ℚ)⌉ = 1 ∨
        ⌈(l : ℚ) * 3 / (maxb : ℚ)⌉ = 2 ∨
        ⌈(l : ℚ) * 3 / (maxb : ℚ)⌉ = 3 := by omega
    rcases hcases with h | h | h | h <;>
      simp only [brightness_icon_name, brightness_icon_number, h] <;>
      decide
  · intro h0l
    subst h0l
    have h : brightness_icon_number 0 maxb = 0 := by
      unfold brightness_icon_number
      norm_num
    simp only [brightness_icon_name, h]
    decide
  · intro hlm
    subst hlm
    have hl0 : (l : ℚ) ≠ 0 := by
      have : (0 : ℚ) < (l : ℚ) := by exact_mod_cast hmax
      exact ne_of_gt this
    have h : brightness_icon_number l l = 99 := by
      unfold brightness_icon_number
      have hq : (l : ℚ) * 3 / (l : ℚ) = 3 := by
        field_simp
      rw [hq]
      norm_num
    simp only [brightness_icon_name, h]
    decide

/-- Witness for C10 at level 1 of maximum 2 (icon `brightness-066`). -/
theorem C10_witness :
    brightness_icon_name 1 2 ∈
      ["brightness-000", "brightness-033", "brightness-066",
       "brightness-100"] ∧
    ((1 : ℕ) = 0 → brightness_icon_name 1 2 = "brightness-000") ∧
    ((1 : ℕ) = 2 → brightness_icon_name 1 2 = "brightness-100") :=
  C10_brightness_icon_names 1 2 (by norm_num) (by norm_num)

end Sugar
